import Mathlib

/-!
Verification of the DeSpeed auto-bot client (src/index.js).

Shallow embedding of the speed-measurement client and the proxy
pool/acquisition logic.  The repository ships two near-duplicate
variants of the client in `index.js`; the second (single-account)
variant carries the proxy-pool code (`getNextProxy`, the
`getProxyAgent` retry loop), the first carries the multi-account
driver.  The measurement code (`performSpeedTest`, `validateToken`,
`generateRandomLocation`, `reportResults`) is byte-identical between
the two variants, so one embedding covers both.

Numbers: JavaScript numeric arithmetic is modelled over `ℚ`
(byte counts additionally as `ℕ`); timestamps are milliseconds (`ℕ`).
-/

namespace DeSpeed

/-! Download phase (`performSpeedTest`, download message handler)

The `ws.on('message')` handler keeps `totalBytes`, `downloadSpeed`
and `lastMeasurement`; a binary frame adds its length, and once
`(now - startTime) / 1000 ≥ 10` it sets
`downloadSpeed = totalBytes * 8 / (duration * 1000000)` and calls
`ws.close()`.  A text frame only stores the parsed measurement.
`close`/`error` events resolve the phase promise with the current
`downloadSpeed` (initial value 0).  We model the phase as a fold of
the handler over the ordered list of socket events; `closed = true`
marks that the connection has been closed (or the promise resolved),
after which no further event is processed. -/

/-- Elapsed seconds since the phase opened: `(now - startTime) / 1000`. -/
def duration (startMs timeMs : ℕ) : ℚ := ((timeMs : ℚ) - (startMs : ℚ)) / 1000

/-- State of the download phase: `totalBytes`, `downloadSpeed`,
`lastMeasurement` (the last parsed text frame) and whether the
connection has been closed. -/
structure DlState where
  totalBytes : ℕ
  downloadSpeed : ℚ
  lastMeasurement : Option String
  closed : Bool
  deriving Repr, DecidableEq

/-- Events arriving on the download socket. -/
inductive DlEvent where
  | binary (len : ℕ) (timeMs : ℕ)
  | text (payload : String) (timeMs : ℕ)
  | errorEvent
  | closeEvent
  deriving Repr, DecidableEq

/-- Initial download-phase state (`totalBytes = 0`, `downloadSpeed = 0`). -/
def dlInit : DlState := { totalBytes := 0, downloadSpeed := 0, lastMeasurement := none, closed := false }

/-- One step of the download handlers (`message`/`close`/`error`). -/
def dlStep (startMs : ℕ) (s : DlState) (e : DlEvent) : DlState :=
  if s.closed then s
  else
    match e with
    | .binary len t =>
        let tb := s.totalBytes + len
        let d := duration startMs t
        if 10 ≤ d then
          { s with totalBytes := tb
                   downloadSpeed := (tb : ℚ) * 8 / (d * 1000000)
                   closed := true }
        else
          { s with totalBytes := tb }
    | .text payload _ => { s with lastMeasurement := some payload }
    | .errorEvent => { s with closed := true }
    | .closeEvent => { s with closed := true }

/-- The download phase: fold the handler over the event sequence. -/
def runDownload (startMs : ℕ) (events : List DlEvent) : DlState :=
  events.foldl (dlStep startMs) dlInit

/-- An event that keeps the download connection open: a binary frame
before the 10-second cutoff, or a text frame. -/
def keepsOpen (startMs : ℕ) : DlEvent → Prop
  | .binary _ t => duration startMs t < 10
  | .text _ _ => True
  | .errorEvent => False
  | .closeEvent => False

/-- Total payload bytes carried by the binary frames of an event list. -/
def sumBytes (events : List DlEvent) : ℕ :=
  (events.map (fun e => match e with | .binary len _ => len | _ => 0)).sum

/-! Upload phase (`performSpeedTest`, upload handlers)

`uploadSpeed` starts at 0.  Two handlers mutate it:
* the `sendData` loop: on the first tick with
  `duration = (now - startTime) / 1000 ≥ 10` it assigns
  `uploadSpeed = totalBytes * 8 / (duration * 1000000)` (the
  client-side estimate) and closes the socket;
* the `message` handler: a text frame whose JSON carries a `TCPInfo`
  object yields `tmpSpeed = TCPInfo.BytesReceived / TCPInfo.ElapsedTime * 8`
  and assigns it only `if (tmpSpeed > uploadSpeed)`.

We model the phase as a fold over the interleaved sequence of these
two updates. -/

/-- The server-side TCP counters carried in an upload text frame. -/
structure TCPInfo where
  BytesReceived : ℚ
  ElapsedTime : ℚ
  deriving Repr, DecidableEq

/-- Server-side estimate `tmpSpeed = (tcpInfo.BytesReceived / tcpInfo.ElapsedTime) * 8`. -/
def tmpSpeed (info : TCPInfo) : ℚ := info.BytesReceived / info.ElapsedTime * 8

/-- Events of the upload phase that mutate `uploadSpeed`:
a text frame with `TCPInfo`, a text frame without it (no effect),
or the `sendData` tick that reaches the 10-second cutoff with the
given client-side byte count and elapsed seconds. -/
inductive UpEvent where
  | tcpMessage (info : TCPInfo)
  | plainMessage
  | cutoffTick (totalBytes : ℕ) (durationSec : ℚ)
  deriving Repr, DecidableEq

/-- One update of `uploadSpeed`. -/
def upStep (uploadSpeed : ℚ) : UpEvent → ℚ
  | .tcpMessage info => if tmpSpeed info > uploadSpeed then tmpSpeed info else uploadSpeed
  | .plainMessage => uploadSpeed
  | .cutoffTick totalBytes durationSec => (totalBytes : ℚ) * 8 / (durationSec * 1000000)

/-- Final `uploadSpeed` after the phase's update events (initial value 0). -/
def runUpload (events : List UpEvent) : ℚ := events.foldl upStep 0

/-- An event handled by the upload `message` handler (not the cutoff). -/
def isMessage : UpEvent → Prop
  | .tcpMessage _ => True
  | .plainMessage => True
  | .cutoffTick _ _ => False

/-! Proxy pool (`getNextProxy`, `createProxyAgent`, `getProxyAgent`)

`proxyList` is a list of `{ type, url }` descriptors;
`config.proxy.currentIndex` is the round-robin cursor.  The cursor
and pool are passed explicitly.  Agent construction
(`new HttpsProxyAgent(...)` / `new SocksProxyAgent(...)`) is
abstracted as a `build` function that may throw (`Except`);
`createProxyAgent` catches a construction error, logs it and returns
`undefined` (`none`).  `isProxyAlive` is abstracted as a boolean
`alive` predicate on agents (it never throws: it catches internally
and returns `false`). -/

/-- A proxy descriptor `{ type, url }` as produced by `loadProxiesFromFile`. -/
structure Proxy where
  type : String
  url : String
  deriving Repr, DecidableEq

/-- The `getNextProxy` function: `null` on an empty pool, otherwise the descriptor at
the cursor, advancing the cursor by one modulo the pool size. -/
def getNextProxy (pool : List Proxy) (currentIndex : ℕ) : Option Proxy × ℕ :=
  if pool.length = 0 then (none, currentIndex)
  else (pool.get? currentIndex, (currentIndex + 1) % pool.length)

/-- Running `k` consecutive `getNextProxy` calls on a fixed pool: the list of
returned descriptors in call order, and the final cursor. -/
def runNext (pool : List Proxy) : ℕ → ℕ → List (Option Proxy) × ℕ
  | currentIndex, 0 => ([], currentIndex)
  | currentIndex, k + 1 =>
      let r := getNextProxy pool currentIndex
      let rest := runNext pool r.2 k
      (r.1 :: rest.1, rest.2)

/-- The `createProxyAgent` function: dereference the pool, build an agent from the
descriptor; a construction error is caught (logged) and yields
`undefined`.  Returns the agent (or `none`) and the advanced cursor. -/
def createProxyAgent {A : Type} (build : Proxy → Except String A)
    (pool : List Proxy) (currentIndex : ℕ) : Option A × ℕ :=
  match getNextProxy pool currentIndex with
  | (none, i) => (none, i)
  | (some p, i) =>
      match build p with
      | .ok a => (some a, i)
      | .error _ => (none, i)

/-- Outcome of `getProxyAgent`: a live agent, `undefined` (which callers
pass to `fetch`/`WebSocket` as "no agent", i.e. direct egress), or the
thrown `'All proxies failed after maximum retry attempts'` error. -/
inductive AcquireResult (A : Type) where
  | success (a : A)
  | direct
  | exhausted
  deriving Repr, DecidableEq

/-- The `while (attempts < retries * proxyList.length)` loop of
`getProxyAgent`, with `fuel` = remaining attempts.  Returns the outcome
together with the number of `isProxyAlive` calls made. -/
def acquireLoop {A : Type} (pool : List Proxy) (build : Proxy → Except String A)
    (alive : A → Bool) : ℕ → ℕ → AcquireResult A × ℕ
  | 0, _ => (.exhausted, 0)
  | fuel + 1, currentIndex =>
      match createProxyAgent build pool currentIndex with
      | (none, _) => (.direct, 0)
      | (some a, nextIndex) =>
          if alive a then (.success a, 1)
          else
            let r := acquireLoop pool build alive fuel nextIndex
            (r.1, r.2 + 1)

/-- The `getProxyAgent(retries)` function: `undefined` immediately when proxying is
disabled or the pool is empty; otherwise up to `retries * proxyList.length`
attempts, throwing when the budget is exhausted. -/
def getProxyAgent {A : Type} (enabled : Bool) (pool : List Proxy)
    (build : Proxy → Except String A) (alive : A → Bool)
    (retries currentIndex : ℕ) : AcquireResult A × ℕ :=
  if enabled = false ∨ pool.length = 0 then (.direct, 0)
  else acquireLoop pool build alive (retries * pool.length) currentIndex

/-! Token validation (`validateToken`)

`validateToken` decodes the JWT payload and fails with `'Token expired'`
when `(tokenData.exp - 90) * 1000 < Date.now()`, before acquiring a
proxy or fetching the profile; otherwise it fetches
`/v1/api/auth/profile` and fails with `'Token invalid'` on a
non-success status.  `exp` is the claim in seconds, `nowMs` is
`Date.now()` in milliseconds; the result records whether validation
succeeded and how many network requests were issued. -/

def validateToken (exp : ℤ) (nowMs : ℤ) (profileOk : Bool) : Bool × ℕ :=
  if (exp - 90) * 1000 < nowMs then (false, 0)
  else if profileOk then (true, 1) else (false, 1)

/-! Random location (`generateRandomLocation`)

`Math.random()` values are abstracted as rationals in `[0, 1)`;
`Math.round` (round half toward positive infinity) is `⌊x + 1/2⌋`. -/

/-- JavaScript `Math.round`: `⌊x + 1/2⌋`. -/
def jsRound (x : ℚ) : ℤ := ⌊x + 1 / 2⌋

/-- Rounding to 6 decimal places: `Math.round(x * 1000000) / 1000000`. -/
def round6 (x : ℚ) : ℚ := (jsRound (x * 1000000) : ℚ) / 1000000

/-- A generated measurement location. -/
structure GeoPoint where
  latitude : ℚ
  longitude : ℚ
  deriving Repr, DecidableEq

/-- The `generateRandomLocation` function, with the two `Math.random()` draws passed
in as `r1, r2`. -/
def generateRandomLocation (r1 r2 : ℚ) : GeoPoint :=
  let minLat : ℚ := 18
  let maxLat : ℚ := 5355 / 100
  let minLng : ℚ := 7366 / 100
  let maxLng : ℚ := 13505 / 100
  let latitude := minLat + r1 * (maxLat - minLat)
  let longitude := minLng + r2 * (maxLng - minLng)
  { latitude := round6 latitude, longitude := round6 longitude }

/-! Models of `performSpeedTest` and `processAccount`

`performSpeedTest` wraps everything in `try/catch`; the `catch`
returns `{ downloadSpeed: 0, uploadSpeed: 0 }`.  Inside the `try`:
a non-`ok` locate response throws, an empty `results` array throws,
then the download and upload phases run sequentially, each as an
awaited promise that resolves with the phase's speed (connection
errors resolve, they do not reject — but the `new WebSocket(...)`
construction itself can throw synchronously, which the `catch`
swallows).  We model each awaited operation's outcome as `Outcome`:
`exn` when it raised, `ok` with its value otherwise. -/

/-- Outcome of one awaited operation: an exception or a value. -/
inductive Outcome (α : Type) where
  | exn
  | ok (a : α)
  deriving Repr, DecidableEq

/-- One entry of the locate response's `results` array. -/
structure Server where
  machine : String
  downloadUrl : String
  uploadUrl : String
  deriving Repr, DecidableEq

/-- The parsed locate response body. -/
structure LocateBody where
  results : List Server
  deriving Repr, DecidableEq

/-- Environment of one `performSpeedTest` call: the locate fetch
outcome (`response.ok` flag and parsed body), and the two phases'
outcomes — for each phase, the ordered event list its handlers see. -/
structure TestEnv where
  locate : Outcome (Bool × LocateBody)
  download : Outcome (List DlEvent)
  upload : Outcome (List UpEvent)

/-- The `{ downloadSpeed, uploadSpeed }` result. -/
structure SpeedSample where
  downloadSpeed : ℚ
  uploadSpeed : ℚ
  deriving Repr, DecidableEq

/-- The `performSpeedTest` function over an environment. -/
def performSpeedTest (startMs : ℕ) (env : TestEnv) : SpeedSample :=
  match env.locate with
  | .exn => { downloadSpeed := 0, uploadSpeed := 0 }
  | .ok (respOk, body) =>
      if respOk = false then { downloadSpeed := 0, uploadSpeed := 0 }
      else
        match body.results with
        | [] => { downloadSpeed := 0, uploadSpeed := 0 }
        | _server :: _ =>
            match env.download with
            | .exn => { downloadSpeed := 0, uploadSpeed := 0 }
            | .ok dlEvents =>
                match env.upload with
                | .exn => { downloadSpeed := 0, uploadSpeed := 0 }
                | .ok upEvents =>
                    { downloadSpeed := (runDownload startMs dlEvents).downloadSpeed
                      uploadSpeed := runUpload upEvents }

/-- Number of measurement (WebSocket) connections `performSpeedTest`
opens: none when server discovery fails, one per phase reached
otherwise. -/
def measurementConnections (env : TestEnv) : ℕ :=
  match env.locate with
  | .exn => 0
  | .ok (respOk, body) =>
      if respOk = false then 0
      else
        match body.results with
        | [] => 0
        | _ :: _ =>
            match env.download with
            | .exn => 1
            | .ok _ =>
                match env.upload with
                | .exn => 2
                | .ok _ => 2

/-- Server discovery failed: the locate fetch threw, the response was
not `ok`, or its `results` array was empty. -/
def discoveryFailed (env : TestEnv) : Prop :=
  match env.locate with
  | .exn => True
  | .ok (respOk, body) => respOk = false ∨ body.results = []

/-- The `processAccount` function (equivalently the single-account `main` body) for
one cycle: if `validateToken` fails the cycle returns early; otherwise
it runs `performSpeedTest` and then always calls `reportResults` with
the resulting speeds.  Returns the number of measurement connections
opened and the list of report payload speed pairs submitted. -/
def processAccount (tokenValid : Bool) (startMs : ℕ) (env : TestEnv) :
    ℕ × List SpeedSample :=
  if tokenValid = false then (0, [])
  else
    let sample := performSpeedTest startMs env
    (measurementConnections env, [sample])

/-- An event whose binary frame (if it is one) arrives strictly before
the 10-second cutoff; text, close and error events qualify vacuously. -/
def noQualBinary (startMs : ℕ) : DlEvent → Prop
  | .binary _ t => duration startMs t < 10
  | _ => True

/-! Helper lemmas: download phase -/

theorem dlStep_of_closed (startMs : ℕ) (s : DlState) (e : DlEvent)
    (h : s.closed = true) : dlStep startMs s e = s := by
  simp [dlStep, h]

theorem foldl_dlStep_of_closed (startMs : ℕ) (s : DlState) (es : List DlEvent)
    (h : s.closed = true) : es.foldl (dlStep startMs) s = s := by
  induction es with
  | nil => rfl
  | cons e es ih => rw [List.foldl_cons, dlStep_of_closed startMs s e h]; exact ih

theorem dlStep_speed_of_noQual (startMs : ℕ) (s : DlState) (e : DlEvent)
    (h : noQualBinary startMs e) :
    (dlStep startMs s e).downloadSpeed = s.downloadSpeed := by
  cases hc : s.closed with
  | true => rw [dlStep_of_closed startMs s e hc]
  | false =>
    cases e with
    | binary len t =>
      have hd : duration startMs t < 10 := h
      simp [dlStep, hc, not_le.mpr hd]
    | text p t => simp [dlStep, hc]
    | errorEvent => simp [dlStep, hc]
    | closeEvent => simp [dlStep, hc]

theorem foldl_dlStep_speed_of_noQual (startMs : ℕ) (es : List DlEvent) :
    ∀ s : DlState, (∀ e ∈ es, noQualBinary startMs e) →
      (es.foldl (dlStep startMs) s).downloadSpeed = s.downloadSpeed := by
  induction es with
  | nil => intro s _; rfl
  | cons e es ih =>
    intro s hall
    rw [List.foldl_cons,
      ih _ (fun e' h' => hall e' (List.mem_cons_of_mem e h')),
      dlStep_speed_of_noQual startMs s e (hall e (List.mem_cons_self e es))]

theorem dlStep_close_or_error (startMs : ℕ) (s : DlState) (term : DlEvent)
    (h : term = DlEvent.closeEvent ∨ term = DlEvent.errorEvent) :
    (dlStep startMs s term).downloadSpeed = s.downloadSpeed ∧
      (dlStep startMs s term).closed = true := by
  rcases h with rfl | rfl <;> cases hc : s.closed <;> simp [dlStep, hc]

theorem foldl_dlStep_keepsOpen (startMs : ℕ) (es : List DlEvent) :
    ∀ s : DlState, s.closed = false → (∀ e ∈ es, keepsOpen startMs e) →
      (es.foldl (dlStep startMs) s).downloadSpeed = s.downloadSpeed ∧
      (es.foldl (dlStep startMs) s).closed = false ∧
      (es.foldl (dlStep startMs) s).totalBytes = s.totalBytes + sumBytes es := by
  induction es with
  | nil => intro s hc _; exact ⟨rfl, hc, by simp [sumBytes]⟩
  | cons e es ih =>
    intro s hc hall
    have he : keepsOpen startMs e := hall e (List.mem_cons_self e es)
    have hes : ∀ e' ∈ es, keepsOpen startMs e' :=
      fun e' h' => hall e' (List.mem_cons_of_mem e h')
    cases e with
    | binary len t =>
      have hd : duration startMs t < 10 := he
      have hstep : dlStep startMs s (.binary len t) =
          { s with totalBytes := s.totalBytes + len } := by
        simp [dlStep, hc, not_le.mpr hd]
      rw [List.foldl_cons, hstep]
      obtain ⟨h1, h2, h3⟩ := ih { s with totalBytes := s.totalBytes + len } hc hes
      refine ⟨h1, h2, ?_⟩
      rw [h3]
      simp [sumBytes]
      omega
    | text p t =>
      have hstep : dlStep startMs s (.text p t) =
          { s with lastMeasurement := some p } := by
        simp [dlStep, hc]
      rw [List.foldl_cons, hstep]
      obtain ⟨h1, h2, h3⟩ := ih { s with lastMeasurement := some p } hc hes
      refine ⟨h1, h2, ?_⟩
      rw [h3]
      simp [sumBytes]
    | errorEvent => exact he.elim
    | closeEvent => exact he.elim

/-- A close or error event after only non-qualifying frames leaves the
download speed at its initial 0, whatever arrives afterwards. -/
theorem download_run_zero (startMs : ℕ) (pre rest : List DlEvent) (term : DlEvent)
    (hterm : term = DlEvent.closeEvent ∨ term = DlEvent.errorEvent)
    (hpre : ∀ e ∈ pre, noQualBinary startMs e) :
    (runDownload startMs (pre ++ term :: rest)).downloadSpeed = 0 := by
  rw [runDownload, List.foldl_append, List.foldl_cons]
  obtain ⟨hsp, hcl⟩ := dlStep_close_or_error startMs (pre.foldl (dlStep startMs) dlInit) term hterm
  rw [foldl_dlStep_of_closed startMs _ rest hcl, hsp,
    foldl_dlStep_speed_of_noQual startMs pre dlInit hpre]
  rfl

/-! Claim theorems -/

/-- C2: in the download phase, at the first inbound binary frame whose
elapsed time since open is at least 10 seconds, the download speed is
computed as `totalBytes * 8 / (elapsed * 1000000)` — with `totalBytes`
the sum of all binary frame lengths received, the current frame
included — and the connection is closed; later events are ignored. -/
theorem download_speed_at_cutoff (startMs len t : ℕ) (pre rest : List DlEvent)
    (hpre : ∀ e ∈ pre, keepsOpen startMs e)
    (ht : 10 ≤ duration startMs t) :
    (runDownload startMs (pre ++ DlEvent.binary len t :: rest)).downloadSpeed
        = ((sumBytes pre + len : ℕ) : ℚ) * 8 / (duration startMs t * 1000000) ∧
      (runDownload startMs (pre ++ DlEvent.binary len t :: rest)).closed = true := by
  obtain ⟨h1, h2, h3⟩ := foldl_dlStep_keepsOpen startMs pre dlInit rfl hpre
  rw [runDownload, List.foldl_append, List.foldl_cons]
  have hstep : dlStep startMs (pre.foldl (dlStep startMs) dlInit) (.binary len t) =
      { pre.foldl (dlStep startMs) dlInit with
          totalBytes := (pre.foldl (dlStep startMs) dlInit).totalBytes + len
          downloadSpeed :=
            (((pre.foldl (dlStep startMs) dlInit).totalBytes + len : ℕ) : ℚ) * 8 /
              (duration startMs t * 1000000)
          closed := true } := by
    simp [dlStep, h2, ht]
  rw [hstep, foldl_dlStep_of_closed startMs _ rest rfl]
  refine ⟨?_, rfl⟩
  rw [h3]
  simp [dlInit]

/-- C2 witness: two binary frames of 6,250,000 bytes each at 5 s and
10 s after open sum to 12,500,000 bytes over exactly 10 seconds and
yield a computed speed of exactly 10 Mbps, closing the connection. -/
theorem download_speed_at_cutoff_witness :
    (∀ e ∈ [DlEvent.binary 6250000 5000], keepsOpen 0 e) ∧
      (10 : ℚ) ≤ duration 0 10000 ∧
      ((runDownload 0 [DlEvent.binary 6250000 5000, DlEvent.binary 6250000 10000]).downloadSpeed
          = ((sumBytes [DlEvent.binary 6250000 5000] + 6250000 : ℕ) : ℚ) * 8 /
              (duration 0 10000 * 1000000) ∧
        (runDownload 0 [DlEvent.binary 6250000 5000, DlEvent.binary 6250000 10000]).closed = true) ∧
      (runDownload 0 [DlEvent.binary 6250000 5000, DlEvent.binary 6250000 10000]).downloadSpeed = 10 := by
  have h1 : ∀ e ∈ [DlEvent.binary 6250000 5000], keepsOpen 0 e := by
    intro e he
    simp only [List.mem_singleton] at he
    subst he
    show duration 0 5000 < 10
    norm_num [duration]
  have h2 : (10 : ℚ) ≤ duration 0 10000 := by norm_num [duration]
  have h3 := download_speed_at_cutoff 0 6250000 10000 [DlEvent.binary 6250000 5000] [] h1 h2
  simp only [List.singleton_append] at h3
  refine ⟨h1, h2, h3, ?_⟩
  rw [h3.1]
  norm_num [sumBytes, duration]

/-- C10 (implicit): if the download connection closes or errors before
any binary frame has arrived with elapsed time ≥ 10 seconds, the
reported download speed is exactly 0 — no matter how many bytes the
earlier frames carried, and no matter what arrives afterwards. -/
theorem download_speed_zero_before_cutoff (startMs : ℕ) (pre rest : List DlEvent)
    (term : DlEvent)
    (hterm : term = DlEvent.closeEvent ∨ term = DlEvent.errorEvent)
    (hpre : ∀ e ∈ pre, noQualBinary startMs e) :
    (runDownload startMs (pre ++ term :: rest)).downloadSpeed = 0 :=
  download_run_zero startMs pre rest term hterm hpre

/-- C10 witness: 999,999 bytes received in a single frame at 5 s,
followed by a connection error, report a download speed of exactly 0 —
the partial window is not pro-rated. -/
theorem download_speed_zero_before_cutoff_witness :
    (DlEvent.errorEvent = DlEvent.closeEvent ∨ DlEvent.errorEvent = DlEvent.errorEvent) ∧
      (∀ e ∈ [DlEvent.binary 999999 5000], noQualBinary 0 e) ∧
      (runDownload 0 ([DlEvent.binary 999999 5000] ++ DlEvent.errorEvent :: [])).downloadSpeed = 0 := by
  have h1 : DlEvent.errorEvent = DlEvent.closeEvent ∨ DlEvent.errorEvent = DlEvent.errorEvent :=
    Or.inr rfl
  have h2 : ∀ e ∈ [DlEvent.binary 999999 5000], noQualBinary 0 e := by
    intro e he
    simp only [List.mem_singleton] at he
    subst he
    show duration 0 5000 < 10
    norm_num [duration]
  exact ⟨h1, h2, download_speed_zero_before_cutoff 0 [DlEvent.binary 999999 5000] [] DlEvent.errorEvent h1 h2⟩

/-- C1 counterexample: a server TCP-statistics message implying 12 Mbps
(15,000,000 bytes over 10,000,000 µs) raises the running estimate to
12, but the subsequent 10-second-cutoff client-side computation
(10,000,000 bytes over 10 s, i.e. 8 Mbps) overwrites it down to 8 —
the final value is below the running estimate and is not the maximum
of the client-side and the server-side estimates. -/
theorem upload_cutoff_overwrites_counterexample :
    runUpload [UpEvent.tcpMessage ⟨15000000, 10000000⟩] = 12 ∧
      runUpload [UpEvent.tcpMessage ⟨15000000, 10000000⟩, UpEvent.cutoffTick 10000000 10] = 8 ∧
      runUpload [UpEvent.tcpMessage ⟨15000000, 10000000⟩, UpEvent.cutoffTick 10000000 10]
        ≠ max ((10000000 : ℚ) * 8 / (10 * 1000000)) (tmpSpeed ⟨15000000, 10000000⟩) := by
  refine ⟨?_, ?_, ?_⟩
  · simp only [runUpload, List.foldl_cons, List.foldl_nil, upStep, tmpSpeed]
    norm_num
  · simp only [runUpload, List.foldl_cons, List.foldl_nil, upStep, tmpSpeed]
    norm_num
  · simp only [runUpload, List.foldl_cons, List.foldl_nil, upStep, tmpSpeed]
    norm_num

/-- C1 amended: the upload `message` handler does keep the maximum —
a server estimate never lowers the running value — but the
10-second-cutoff `sendData` tick overwrites the running value with the
client-side estimate unconditionally, discarding every estimate seen
before it; consequently the final speed equals the client-side
estimate folded (monotonically upward) with only the server estimates
arriving after the cutoff. -/
theorem upload_speed_amended :
    (∀ (s : ℚ) (info : TCPInfo),
        upStep s (UpEvent.tcpMessage info) = max s (tmpSpeed info)) ∧
      (∀ (pre post : List UpEvent) (tb : ℕ) (d : ℚ),
        runUpload (pre ++ UpEvent.cutoffTick tb d :: post)
          = post.foldl upStep ((tb : ℚ) * 8 / (d * 1000000))) ∧
      (∀ (v : ℚ) (post : List UpEvent), (∀ e ∈ post, isMessage e) →
        v ≤ post.foldl upStep v) := by
  refine ⟨?_, ?_, ?_⟩
  · intro s info
    rcases lt_or_le s (tmpSpeed info) with h | h
    · rw [upStep, if_pos h, max_eq_right h.le]
    · rw [upStep, if_neg (not_lt.mpr h), max_eq_left h]
  · intro pre post tb d
    rw [runUpload, List.foldl_append, List.foldl_cons]
    rfl
  · intro v post
    induction post generalizing v with
    | nil => intro _; exact le_refl v
    | cons e post ih =>
      intro hall
      have he : isMessage e := hall e (List.mem_cons_self e post)
      have hstep : v ≤ upStep v e := by
        cases e with
        | tcpMessage info =>
          rcases lt_or_le v (tmpSpeed info) with h | h
          · rw [upStep, if_pos h]; exact h.le
          · rw [upStep, if_neg (not_lt.mpr h)]
        | plainMessage => exact le_refl v
        | cutoffTick tb d => exact he.elim
      rw [List.foldl_cons]
      exact hstep.trans (ih (upStep v e) (fun e' h' => hall e' (List.mem_cons_of_mem e h')))

/-- C1 amended witness: at a client-side estimate of 8 Mbps, a server
message implying 12 Mbps raises the value to `max 8 12`; the run
`[cutoff(8 Mbps), server(12 Mbps)]` equals the fold of the post-cutoff
messages from the client estimate; and folding messages from 8 never
goes below 8. -/
theorem upload_speed_amended_witness :
    upStep 8 (UpEvent.tcpMessage ⟨15000000, 10000000⟩) = max 8 (tmpSpeed ⟨15000000, 10000000⟩) ∧
      runUpload ([] ++ UpEvent.cutoffTick 10000000 10 :: [UpEvent.tcpMessage ⟨15000000, 10000000⟩])
        = [UpEvent.tcpMessage ⟨15000000, 10000000⟩].foldl upStep ((10000000 : ℚ) * 8 / (10 * 1000000)) ∧
      (∀ e ∈ [UpEvent.tcpMessage ⟨15000000, 10000000⟩], isMessage e) ∧
      (8 : ℚ) ≤ [UpEvent.tcpMessage ⟨15000000, 10000000⟩].foldl upStep 8 := by
  have hmsg : ∀ e ∈ [UpEvent.tcpMessage (⟨15000000, 10000000⟩ : TCPInfo)], isMessage e := by
    intro e he
    simp only [List.mem_singleton] at he
    subst he
    trivial
  exact ⟨upload_speed_amended.1 8 ⟨15000000, 10000000⟩,
    upload_speed_amended.2.1 [] [UpEvent.tcpMessage ⟨15000000, 10000000⟩] 10000000 10,
    hmsg,
    upload_speed_amended.2.2 8 [UpEvent.tcpMessage ⟨15000000, 10000000⟩] hmsg⟩

/-! Helper lemmas: proxy pool -/

theorem getNextProxy_of_ne (pool : List Proxy) (idx : ℕ) (hne : pool.length ≠ 0) :
    getNextProxy pool idx = (pool.get? idx, (idx + 1) % pool.length) := by
  rw [getNextProxy, if_neg hne]

/-- Characterisation of `k` consecutive `getNextProxy` calls: call `j`
returns the entry at `(idx + j) % length`, and the cursor ends at
`(idx + k) % length`. -/
theorem runNext_spec (pool : List Proxy) (hne : pool ≠ []) :
    ∀ (k idx : ℕ), idx < pool.length →
      (runNext pool idx k).1
          = (List.range k).map (fun j => pool.get? ((idx + j) % pool.length)) ∧
        (runNext pool idx k).2 = (idx + k) % pool.length := by
  have hN : 0 < pool.length := List.length_pos.mpr hne
  intro k
  induction k with
  | zero =>
    intro idx hidx
    exact ⟨rfl, by simp [runNext, Nat.mod_eq_of_lt hidx]⟩
  | succ k ih =>
    intro idx hidx
    have hidx' : (idx + 1) % pool.length < pool.length := Nat.mod_lt _ hN
    obtain ⟨ih1, ih2⟩ := ih ((idx + 1) % pool.length) hidx'
    have hrec : runNext pool idx (k + 1)
        = ((pool.get? idx) :: (runNext pool ((idx + 1) % pool.length) k).1,
           (runNext pool ((idx + 1) % pool.length) k).2) := by
      rw [runNext, getNextProxy_of_ne pool idx (Nat.pos_iff_ne_zero.mp hN)]
    rw [hrec]
    constructor
    · show pool.get? idx :: (runNext pool ((idx + 1) % pool.length) k).1
        = (List.range (k + 1)).map (fun j => pool.get? ((idx + j) % pool.length))
      rw [ih1, List.range_succ_eq_map, List.map_cons, List.map_map]
      congr 1
      · rw [Nat.add_zero, Nat.mod_eq_of_lt hidx]
      · have hfun : (fun j => pool.get? (((idx + 1) % pool.length + j) % pool.length))
            = ((fun j => pool.get? ((idx + j) % pool.length)) ∘ Nat.succ) := by
          funext j
          show pool.get? (((idx + 1) % pool.length + j) % pool.length)
            = pool.get? ((idx + (j + 1)) % pool.length)
          rw [Nat.mod_add_mod, show idx + 1 + j = idx + (j + 1) from by omega]
        rw [hfun]
    · show (runNext pool ((idx + 1) % pool.length) k).2 = (idx + (k + 1)) % pool.length
      rw [ih2, Nat.mod_add_mod, show idx + 1 + k = idx + (k + 1) from by omega]

/-- C3: for a non-empty pool of `N` descriptors and a cursor in
`[0, N)`, `N` consecutive `getNextProxy` calls return the rotation of
the pool at the cursor — hence each descriptor exactly once — the
`(N+1)`-th call returns the same descriptor as the first again, and
after every call the cursor stays in `[0, N)` (`getNextProxy` never
consults liveness). -/
theorem proxy_round_robin (pool : List Proxy) (idx : ℕ)
    (hne : pool ≠ []) (hidx : idx < pool.length) :
    (runNext pool idx pool.length).1 = (pool.rotate idx).map some ∧
      ((runNext pool idx pool.length).1).Perm (pool.map some) ∧
      (runNext pool idx (pool.length + 1)).1.get? pool.length
        = (runNext pool idx (pool.length + 1)).1.get? 0 ∧
      (∀ k, 0 < k → (runNext pool idx k).2 < pool.length) := by
  have hN : 0 < pool.length := List.length_pos.mpr hne
  have hrot : (runNext pool idx pool.length).1 = (pool.rotate idx).map some := by
    rw [(runNext_spec pool hne pool.length idx hidx).1]
    apply List.ext_get?
    intro m
    rcases lt_or_le m pool.length with hm | hm
    · rw [List.get?_map, List.get?_range hm, List.get?_map, List.get?_rotate hm,
        List.get?_eq_get (Nat.mod_lt _ hN), Option.map_some']
      simp only [Option.map_some']
      rw [List.get?_eq_get (Nat.mod_lt _ hN), Nat.add_comm m idx]
    · rw [List.get?_eq_none.mpr (by simpa using hm),
        List.get?_eq_none.mpr (by simpa using hm)]
  refine ⟨hrot, ?_, ?_, ?_⟩
  · rw [hrot]
    exact (pool.rotate_perm idx).map some
  · rw [(runNext_spec pool hne (pool.length + 1) idx hidx).1]
    rw [List.get?_map, List.get?_range (by omega), List.get?_map,
      List.get?_range (by omega)]
    simp only [Option.map_some']
    rw [Nat.add_zero, Nat.mod_eq_of_lt hidx, Nat.add_mod_right, Nat.mod_eq_of_lt hidx]
  · intro k _
    rw [(runNext_spec pool hne k idx hidx).2]
    exact Nat.mod_lt _ hN

/-- C3 witness: a pool of three descriptors, cursor 0 — three calls
return each descriptor once (the rotation at 0), the fourth call
repeats the first, and the cursor stays below 3. -/
theorem proxy_round_robin_witness :
    ([⟨"http", "http://a:1"⟩, ⟨"socks4", "socks4://b:2"⟩, ⟨"socks5", "socks5://c:3"⟩]
        : List Proxy) ≠ [] ∧
      0 < ([⟨"http", "http://a:1"⟩, ⟨"socks4", "socks4://b:2"⟩, ⟨"socks5", "socks5://c:3"⟩]
        : List Proxy).length ∧
      ((runNext [⟨"http", "http://a:1"⟩, ⟨"socks4", "socks4://b:2"⟩, ⟨"socks5", "socks5://c:3"⟩] 0
          ([⟨"http", "http://a:1"⟩, ⟨"socks4", "socks4://b:2"⟩, ⟨"socks5", "socks5://c:3"⟩]
            : List Proxy).length).1).Perm
        (([⟨"http", "http://a:1"⟩, ⟨"socks4", "socks4://b:2"⟩, ⟨"socks5", "socks5://c:3"⟩]
          : List Proxy).map some) ∧
      (runNext [⟨"http", "http://a:1"⟩, ⟨"socks4", "socks4://b:2"⟩, ⟨"socks5", "socks5://c:3"⟩] 0 1).2
        < ([⟨"http", "http://a:1"⟩, ⟨"socks4", "socks4://b:2"⟩, ⟨"socks5", "socks5://c:3"⟩]
          : List Proxy).length := by
  have hne : ([⟨"http", "http://a:1"⟩, ⟨"socks4", "socks4://b:2"⟩, ⟨"socks5", "socks5://c:3"⟩]
      : List Proxy) ≠ [] := List.cons_ne_nil _ _
  have hidx : 0 < ([⟨"http", "http://a:1"⟩, ⟨"socks4", "socks4://b:2"⟩, ⟨"socks5", "socks5://c:3"⟩]
      : List Proxy).length := by simp
  exact ⟨hne, hidx,
    (proxy_round_robin
      [⟨"http", "http://a:1"⟩, ⟨"socks4", "socks4://b:2"⟩, ⟨"socks5", "socks5://c:3"⟩]
      0 hne hidx).2.1,
    (proxy_round_robin
      [⟨"http", "http://a:1"⟩, ⟨"socks4", "socks4://b:2"⟩, ⟨"socks5", "socks5://c:3"⟩]
      0 hne hidx).2.2.2 1 (by norm_num)⟩

/-- When the pool is non-empty, every descriptor builds successfully and
every liveness check fails, each loop iteration consumes exactly one
attempt and one liveness call, and the budget runs out. -/
theorem acquireLoop_exhausts {A : Type} (pool : List Proxy)
    (build : Proxy → Except String A) (alive : A → Bool)
    (hne : pool ≠ [])
    (hbuild : ∀ p ∈ pool, ∃ a, build p = Except.ok a)
    (halive : ∀ a, alive a = false) :
    ∀ (fuel idx : ℕ), idx < pool.length →
      acquireLoop pool build alive fuel idx = (AcquireResult.exhausted, fuel) := by
  have hN : 0 < pool.length := List.length_pos.mpr hne
  intro fuel
  induction fuel with
  | zero => intro idx _; rfl
  | succ fuel ih =>
    intro idx hidx
    obtain ⟨a, ha⟩ := hbuild (pool.get ⟨idx, hidx⟩) (pool.get_mem _ _)
    have hcreate : createProxyAgent build pool idx = (some a, (idx + 1) % pool.length) := by
      rw [createProxyAgent, getNextProxy_of_ne pool idx (Nat.pos_iff_ne_zero.mp hN),
        List.get?_eq_get hidx]
      simp only
      rw [ha]
    rw [acquireLoop, hcreate]
    simp only [halive a, Bool.false_eq_true, if_false]
    rw [ih ((idx + 1) % pool.length) (Nat.mod_lt _ hN)]

/-- C4: with proxying enabled, a non-empty pool whose descriptors all
build but never pass the liveness check, `getProxyAgent` makes exactly
`maxRetries * poolSize` liveness-check calls (hence at most that many)
and then fails with the thrown proxy-exhausted error — it neither
returns an agent nor silently returns `undefined`. -/
theorem acquire_exhausts_with_error {A : Type} (pool : List Proxy)
    (build : Proxy → Except String A) (alive : A → Bool) (retries idx : ℕ)
    (hne : pool ≠ []) (hidx : idx < pool.length)
    (hbuild : ∀ p ∈ pool, ∃ a, build p = Except.ok a)
    (halive : ∀ a, alive a = false) :
    getProxyAgent true pool build alive retries idx
      = (AcquireResult.exhausted, retries * pool.length) := by
  have hN : 0 < pool.length := List.length_pos.mpr hne
  rw [getProxyAgent, if_neg (by simp [Nat.pos_iff_ne_zero.mp hN])]
  exact acquireLoop_exhausts pool build alive hne hbuild halive (retries * pool.length) idx hidx

/-- C4 witness: a one-proxy pool whose agent always builds and never
passes the liveness check exhausts a budget of 3 retries after exactly
`3 * 1` liveness calls and yields the thrown-error outcome. -/
theorem acquire_exhausts_with_error_witness :
    ([⟨"http", "http://1.2.3.4:3128"⟩] : List Proxy) ≠ [] ∧
      0 < ([⟨"http", "http://1.2.3.4:3128"⟩] : List Proxy).length ∧
      getProxyAgent true [⟨"http", "http://1.2.3.4:3128"⟩]
          (fun _ => (Except.ok () : Except String Unit)) (fun _ => false) 3 0
        = (AcquireResult.exhausted, 3 * ([⟨"http", "http://1.2.3.4:3128"⟩] : List Proxy).length) := by
  have hne : ([⟨"http", "http://1.2.3.4:3128"⟩] : List Proxy) ≠ [] := List.cons_ne_nil _ _
  have hidx : 0 < ([⟨"http", "http://1.2.3.4:3128"⟩] : List Proxy).length := by simp
  exact ⟨hne, hidx,
    acquire_exhausts_with_error [⟨"http", "http://1.2.3.4:3128"⟩]
      (fun _ => (Except.ok () : Except String Unit)) (fun _ => false) 3 0 hne hidx
      (fun p _ => ⟨(), rfl⟩) (fun _ => rfl)⟩

/-- C8 counterexample: a descriptor whose agent construction throws
(malformed/unsupported scheme) makes `getProxyAgent` return the
`undefined` outcome with no liveness call — literally the same value
the disabled-proxy (direct egress) path returns — instead of a
distinct failure. -/
theorem proxy_build_failure_counterexample :
    getProxyAgent true [⟨"http", "not a url"⟩]
        (fun _ => (Except.error "Invalid URL" : Except String Unit)) (fun _ => true) 3 0
      = (AcquireResult.direct, 0) ∧
      getProxyAgent false []
          (fun _ => (Except.error "Invalid URL" : Except String Unit)) (fun _ => true) 3 0
        = (AcquireResult.direct, 0) := by
  constructor
  · rw [getProxyAgent, if_neg (by simp)]
    rfl
  · rw [getProxyAgent, if_pos (Or.inl rfl)]

/-- C8 amended: when the dereferenced descriptor's agent construction
throws (unsupported or malformed scheme), `createProxyAgent` catches
the error, logs it and returns `undefined`, and `getProxyAgent`
returns `undefined` to its caller — the same value as the direct
(unproxied) handle returned when proxying is disabled — so the failure
is silently converted into direct egress rather than signalled
distinctly. -/
theorem proxy_build_failure_amended {A : Type} (pool : List Proxy)
    (build : Proxy → Except String A) (alive : A → Bool) (retries idx : ℕ)
    (msg : String) (hne : pool ≠ []) (hidx : idx < pool.length) (hr : 0 < retries)
    (hbad : build (pool.get ⟨idx, hidx⟩) = Except.error msg) :
    getProxyAgent true pool build alive retries idx = (AcquireResult.direct, 0) ∧
      getProxyAgent false pool build alive retries idx = (AcquireResult.direct, 0) := by
  have hN : 0 < pool.length := List.length_pos.mpr hne
  constructor
  · rw [getProxyAgent, if_neg (by simp [Nat.pos_iff_ne_zero.mp hN])]
    obtain ⟨m, hm⟩ : ∃ m, retries * pool.length = m + 1 :=
      ⟨retries * pool.length - 1, by
        have : 0 < retries * pool.length := Nat.mul_pos hr hN
        omega⟩
    rw [hm]
    have hcreate : createProxyAgent build pool idx = (none, (idx + 1) % pool.length) := by
      rw [createProxyAgent, getNextProxy_of_ne pool idx (Nat.pos_iff_ne_zero.mp hN),
        List.get?_eq_get hidx]
      simp only
      rw [hbad]
    rw [acquireLoop, hcreate]
  · rw [getProxyAgent, if_pos (Or.inl rfl)]

/-- C8 amended witness: a single malformed descriptor with a 3-retry
budget yields the `undefined` (direct) outcome both with proxying
enabled and disabled. -/
theorem proxy_build_failure_amended_witness :
    ([⟨"http", "not a url"⟩] : List Proxy) ≠ [] ∧
      0 < ([⟨"http", "not a url"⟩] : List Proxy).length ∧
      (0 : ℕ) < 3 ∧
      (getProxyAgent true [⟨"http", "not a url"⟩]
          (fun _ => (Except.error "Invalid URL" : Except String Unit)) (fun _ => true) 3 0
        = (AcquireResult.direct, 0) ∧
        getProxyAgent false [⟨"http", "not a url"⟩]
          (fun _ => (Except.error "Invalid URL" : Except String Unit)) (fun _ => true) 3 0
        = (AcquireResult.direct, 0)) := by
  have hne : ([⟨"http", "not a url"⟩] : List Proxy) ≠ [] := List.cons_ne_nil _ _
  have hidx : 0 < ([⟨"http", "not a url"⟩] : List Proxy).length := by simp
  exact ⟨hne, hidx, by norm_num,
    proxy_build_failure_amended [⟨"http", "not a url"⟩]
      (fun _ => (Except.error "Invalid URL" : Except String Unit)) (fun _ => true) 3 0
      "Invalid URL" hne hidx (by norm_num) rfl⟩

/-- C5: `validateToken` fails with "expired" — issuing zero network
requests — exactly when `(exp - 90) * 1000 < Date.now()`; a credential
with `exp = now + 91` seconds survives the claim check (and reaches
the profile fetch), while `exp = now + 89` seconds fails it before any
network activity. -/
theorem token_expiry_margin :
    (∀ (exp nowMs : ℤ) (profileOk : Bool), (exp - 90) * 1000 < nowMs →
        validateToken exp nowMs profileOk = (false, 0)) ∧
      (∀ (nowSec : ℤ) (profileOk : Bool),
        (validateToken (nowSec + 91) (nowSec * 1000) profileOk).2 = 1) ∧
      (∀ (nowSec : ℤ) (profileOk : Bool),
        validateToken (nowSec + 89) (nowSec * 1000) profileOk = (false, 0)) := by
  refine ⟨?_, ?_, ?_⟩
  · intro exp nowMs profileOk h
    rw [validateToken, if_pos h]
  · intro nowSec profileOk
    have h : ¬ ((nowSec + 91 - 90) * 1000 < nowSec * 1000) := by omega
    rw [validateToken, if_neg h]
    cases profileOk <;> rfl
  · intro nowSec profileOk
    have h : (nowSec + 89 - 90) * 1000 < nowSec * 1000 := by omega
    rw [validateToken, if_pos h]

/-- C5 witness: at `now = 1,000,000 ms` (`nowSec = 1000`): an already
expired claim fails with zero network requests; `exp = now + 91 s`
reaches the profile fetch; `exp = now + 89 s` fails before it. -/
theorem token_expiry_margin_witness :
    ((0 : ℤ) - 90) * 1000 < 1000000 ∧
      validateToken 0 1000000 true = (false, 0) ∧
      (validateToken (1000 + 91) (1000 * 1000) true).2 = 1 ∧
      validateToken (1000 + 89) (1000 * 1000) true = (false, 0) := by
  have h : ((0 : ℤ) - 90) * 1000 < 1000000 := by norm_num
  exact ⟨h, token_expiry_margin.1 0 1000000 true h,
    token_expiry_margin.2.1 1000 true,
    token_expiry_margin.2.2 1000 true⟩

/-- C6: any exception during server discovery or either measurement
phase makes `performSpeedTest` return `{downloadSpeed: 0, uploadSpeed: 0}`
rather than propagating; and a streaming-connection error inside one
phase yields 0 for that phase while the other phase still runs and
contributes its own value. -/
theorem speed_test_error_degradation :
    (∀ (startMs : ℕ) (env : TestEnv),
        env.locate = Outcome.exn ∨ env.download = Outcome.exn ∨ env.upload = Outcome.exn →
        performSpeedTest startMs env = { downloadSpeed := 0, uploadSpeed := 0 }) ∧
      (∀ (startMs : ℕ) (srv : Server) (others : List Server)
          (pre rest : List DlEvent) (term : DlEvent) (upEvents : List UpEvent),
        (term = DlEvent.closeEvent ∨ term = DlEvent.errorEvent) →
        (∀ e ∈ pre, noQualBinary startMs e) →
        performSpeedTest startMs
            ⟨Outcome.ok (true, ⟨srv :: others⟩),
             Outcome.ok (pre ++ term :: rest), Outcome.ok upEvents⟩
          = { downloadSpeed := 0, uploadSpeed := runUpload upEvents }) ∧
      (∀ (startMs : ℕ) (srv : Server) (others : List Server) (dlEvents : List DlEvent),
        performSpeedTest startMs
            ⟨Outcome.ok (true, ⟨srv :: others⟩), Outcome.ok dlEvents, Outcome.ok []⟩
          = { downloadSpeed := (runDownload startMs dlEvents).downloadSpeed,
              uploadSpeed := 0 }) := by
  refine ⟨?_, ?_, ?_⟩
  · intro startMs env h
    obtain ⟨loc, dl, up⟩ := env
    cases loc with
    | exn => rfl
    | ok x =>
      obtain ⟨b, body⟩ := x
      obtain ⟨results⟩ := body
      cases b with
      | false => rfl
      | true =>
        cases results with
        | nil => rfl
        | cons s others =>
          cases dl with
          | exn => rfl
          | ok dlEvents =>
            cases up with
            | exn => rfl
            | ok upEvents =>
              simp only at h
              rcases h with h | h | h <;> exact absurd h (by simp)
  · intro startMs srv others pre rest term upEvents hterm hpre
    show SpeedSample.mk (runDownload startMs (pre ++ term :: rest)).downloadSpeed
        (runUpload upEvents) = _
    rw [download_run_zero startMs pre rest term hterm hpre]
  · intro startMs srv others dlEvents
    rfl

/-- C6 witness: with a located server, a download connection erroring
after one early frame and an upload run seeing one server estimate,
the download phase reports 0 while the upload phase still reports its
own value; and an exception in the locate step degrades everything to
`{0, 0}`. -/
theorem speed_test_error_degradation_witness :
    (TestEnv.locate ⟨Outcome.exn, Outcome.ok [], Outcome.ok []⟩ = Outcome.exn ∨
        TestEnv.download ⟨Outcome.exn, Outcome.ok [], Outcome.ok []⟩ = Outcome.exn ∨
        TestEnv.upload ⟨Outcome.exn, Outcome.ok [], Outcome.ok []⟩ = Outcome.exn) ∧
      performSpeedTest 0 ⟨Outcome.exn, Outcome.ok [], Outcome.ok []⟩
        = { downloadSpeed := 0, uploadSpeed := 0 } ∧
      (DlEvent.errorEvent = DlEvent.closeEvent ∨ DlEvent.errorEvent = DlEvent.errorEvent) ∧
      (∀ e ∈ [DlEvent.binary 999999 5000], noQualBinary 0 e) ∧
      performSpeedTest 0
          ⟨Outcome.ok (true, ⟨[⟨"mlab1", "wss://d", "wss://u"⟩]⟩),
           Outcome.ok ([DlEvent.binary 999999 5000] ++ DlEvent.errorEvent :: []),
           Outcome.ok [UpEvent.tcpMessage ⟨15000000, 10000000⟩]⟩
        = { downloadSpeed := 0,
            uploadSpeed := runUpload [UpEvent.tcpMessage ⟨15000000, 10000000⟩] } := by
  have hloc : TestEnv.locate ⟨Outcome.exn, Outcome.ok [], Outcome.ok []⟩ = Outcome.exn ∨
      TestEnv.download ⟨Outcome.exn, Outcome.ok [], Outcome.ok []⟩ = Outcome.exn ∨
      TestEnv.upload ⟨Outcome.exn, Outcome.ok [], Outcome.ok []⟩ = Outcome.exn := Or.inl rfl
  have hterm : DlEvent.errorEvent = DlEvent.closeEvent ∨ DlEvent.errorEvent = DlEvent.errorEvent :=
    Or.inr rfl
  have hpre : ∀ e ∈ [DlEvent.binary 999999 5000], noQualBinary 0 e := by
    intro e he
    simp only [List.mem_singleton] at he
    subst he
    show duration 0 5000 < 10
    norm_num [duration]
  exact ⟨hloc, speed_test_error_degradation.1 0 _ hloc, hterm, hpre,
    speed_test_error_degradation.2.1 0 ⟨"mlab1", "wss://d", "wss://u"⟩ []
      [DlEvent.binary 999999 5000] [] DlEvent.errorEvent
      [UpEvent.tcpMessage ⟨15000000, 10000000⟩] hterm hpre⟩

/-- C7 counterexample: a successful locate response with an empty
`results` array (discovery failure) opens no measurement connection,
but the cycle is NOT aborted before reporting: `processAccount` still
submits exactly one report — with speeds `{0, 0}` — contradicting "no
result report is submitted for that cycle". -/
theorem discovery_failure_still_reports :
    measurementConnections ⟨Outcome.ok (true, ⟨[]⟩), Outcome.ok [], Outcome.ok []⟩ = 0 ∧
      (processAccount true 0 ⟨Outcome.ok (true, ⟨[]⟩), Outcome.ok [], Outcome.ok []⟩).2
        = [{ downloadSpeed := 0, uploadSpeed := 0 }] ∧
      (processAccount true 0 ⟨Outcome.ok (true, ⟨[]⟩), Outcome.ok [], Outcome.ok []⟩).2 ≠ [] := by
  refine ⟨rfl, rfl, ?_⟩
  intro h
  exact List.cons_ne_nil _ _ h

/-- C7 amended: when server discovery fails (locate exception,
non-success response, or empty `results`), no measurement connection
is opened and the speed test degrades to `{0, 0}` — but the account's
cycle is not aborted: exactly one report, carrying zero speeds, is
still submitted. -/
theorem discovery_failure_amended (startMs : ℕ) (env : TestEnv)
    (h : discoveryFailed env) :
    processAccount true startMs env = (0, [{ downloadSpeed := 0, uploadSpeed := 0 }]) := by
  obtain ⟨loc, dl, up⟩ := env
  cases loc with
  | exn => rfl
  | ok x =>
    obtain ⟨b, body⟩ := x
    obtain ⟨results⟩ := body
    rcases h with h | h
    · cases b with
      | false => rfl
      | true => exact absurd h (by simp)
    · simp only at h
      subst h
      cases b <;> rfl

/-- C7 amended witness: the empty-`results` environment yields zero
connections and one zero-speed report. -/
theorem discovery_failure_amended_witness :
    discoveryFailed ⟨Outcome.ok (true, ⟨[]⟩), Outcome.ok [], Outcome.ok []⟩ ∧
      processAccount true 0 ⟨Outcome.ok (true, ⟨[]⟩), Outcome.ok [], Outcome.ok []⟩
        = (0, [{ downloadSpeed := 0, uploadSpeed := 0 }]) := by
  have h : discoveryFailed ⟨Outcome.ok (true, ⟨[]⟩), Outcome.ok [], Outcome.ok []⟩ :=
    Or.inr rfl
  exact ⟨h, discovery_failure_amended 0 _ h⟩

/-! Helper lemmas: rounding -/

theorem round6_lower (a : ℤ) (x : ℚ) (h : (a : ℚ) / 1000000 ≤ x) :
    (a : ℚ) / 1000000 ≤ round6 x := by
  have h1 : (a : ℚ) ≤ x * 1000000 := by
    rw [div_le_iff (by norm_num : (0 : ℚ) < 1000000)] at h
    exact h
  have h2 : a ≤ jsRound (x * 1000000) := Int.le_floor.mpr (by linarith)
  have h3 : (a : ℚ) ≤ (jsRound (x * 1000000) : ℚ) := by exact_mod_cast h2
  rw [round6]
  gcongr

theorem round6_upper (b : ℤ) (x : ℚ) (h : x < (b : ℚ) / 1000000) :
    round6 x ≤ (b : ℚ) / 1000000 := by
  have h1 : x * 1000000 < (b : ℚ) := by
    rw [lt_div_iff (by norm_num : (0 : ℚ) < 1000000)] at h
    exact h
  have h2 : jsRound (x * 1000000) < b + 1 := by
    rw [jsRound]
    apply Int.floor_lt.mpr
    push_cast
    linarith
  have h3 : jsRound (x * 1000000) ≤ b := by omega
  have h4 : (jsRound (x * 1000000) : ℚ) ≤ (b : ℚ) := by exact_mod_cast h3
  rw [round6]
  gcongr

/-- C9: for `Math.random()` draws in `[0, 1)`, the generated point
satisfies latitude ∈ [18.0, 53.55] and longitude ∈ [73.66, 135.05],
and both coordinates are exact multiples of 10⁻⁶ (6-decimal
precision). -/
theorem location_bounds (r1 r2 : ℚ)
    (h1 : 0 ≤ r1) (h1' : r1 < 1) (h2 : 0 ≤ r2) (h2' : r2 < 1) :
    18 ≤ (generateRandomLocation r1 r2).latitude ∧
      (generateRandomLocation r1 r2).latitude ≤ 5355 / 100 ∧
      7366 / 100 ≤ (generateRandomLocation r1 r2).longitude ∧
      (generateRandomLocation r1 r2).longitude ≤ 13505 / 100 ∧
      (∃ z : ℤ, (generateRandomLocation r1 r2).latitude = (z : ℚ) / 1000000) ∧
      (∃ z : ℤ, (generateRandomLocation r1 r2).longitude = (z : ℚ) / 1000000) := by
  have hlat : (generateRandomLocation r1 r2).latitude
      = round6 (18 + r1 * (5355 / 100 - 18)) := rfl
  have hlng : (generateRandomLocation r1 r2).longitude
      = round6 (7366 / 100 + r2 * (13505 / 100 - 7366 / 100)) := rfl
  have hlat_lb : (18 : ℚ) ≤ 18 + r1 * (5355 / 100 - 18) := by nlinarith
  have hlat_ub : 18 + r1 * (5355 / 100 - 18) < 5355 / 100 := by nlinarith
  have hlng_lb : (7366 / 100 : ℚ) ≤ 7366 / 100 + r2 * (13505 / 100 - 7366 / 100) := by nlinarith
  have hlng_ub : 7366 / 100 + r2 * (13505 / 100 - 7366 / 100) < 13505 / 100 := by nlinarith
  refine ⟨?_, ?_, ?_, ?_, ?_, ?_⟩
  · rw [hlat]
    have := round6_lower 18000000 (18 + r1 * (5355 / 100 - 18)) (by push_cast; linarith)
    calc (18 : ℚ) = (18000000 : ℤ) / 1000000 := by norm_num
      _ ≤ _ := this
  · rw [hlat]
    have := round6_upper 53550000 (18 + r1 * (5355 / 100 - 18)) (by push_cast; linarith)
    calc round6 (18 + r1 * (5355 / 100 - 18)) ≤ ((53550000 : ℤ) : ℚ) / 1000000 := this
      _ = 5355 / 100 := by norm_num
  · rw [hlng]
    have := round6_lower 73660000 (7366 / 100 + r2 * (13505 / 100 - 7366 / 100))
      (by push_cast; linarith)
    calc (7366 / 100 : ℚ) = (73660000 : ℤ) / 1000000 := by norm_num
      _ ≤ _ := this
  · rw [hlng]
    have := round6_upper 135050000 (7366 / 100 + r2 * (13505 / 100 - 7366 / 100))
      (by push_cast; linarith)
    calc round6 (7366 / 100 + r2 * (13505 / 100 - 7366 / 100))
          ≤ ((135050000 : ℤ) : ℚ) / 1000000 := this
      _ = 13505 / 100 := by norm_num
  · exact ⟨jsRound ((18 + r1 * (5355 / 100 - 18)) * 1000000), hlat⟩
  · exact ⟨jsRound ((7366 / 100 + r2 * (13505 / 100 - 7366 / 100)) * 1000000), hlng⟩

/-- C9 witness: the draws `r1 = r2 = 1/2` satisfy the `[0, 1)` bounds
and yield a point inside the latitude/longitude boxes with 6-decimal
precision. -/
theorem location_bounds_witness :
    (0 : ℚ) ≤ 1 / 2 ∧ (1 / 2 : ℚ) < 1 ∧
      (18 ≤ (generateRandomLocation (1 / 2) (1 / 2)).latitude ∧
        (generateRandomLocation (1 / 2) (1 / 2)).latitude ≤ 5355 / 100 ∧
        7366 / 100 ≤ (generateRandomLocation (1 / 2) (1 / 2)).longitude ∧
        (generateRandomLocation (1 / 2) (1 / 2)).longitude ≤ 13505 / 100 ∧
        (∃ z : ℤ, (generateRandomLocation (1 / 2) (1 / 2)).latitude = (z : ℚ) / 1000000) ∧
        (∃ z : ℤ, (generateRandomLocation (1 / 2) (1 / 2)).longitude = (z : ℚ) / 1000000)) := by
  have ha : (0 : ℚ) ≤ 1 / 2 := by norm_num
  have hb : (1 / 2 : ℚ) < 1 := by norm_num
  exact ⟨ha, hb, location_bounds (1 / 2) (1 / 2) ha hb ha hb⟩

end DeSpeed
